import Mathlib

set_option maxRecDepth 100000
set_option maxHeartbeats 4000000

/-!
Shallow embedding of the Picasso Tower assignment counter
(`count_assignments.py` and `count_assignments_alternative_solution.py`).

Floors are the integer ranks 1..5 of the Python `Floor(IntEnum)`; animals and
colors are the closed five-element enumerations.  A hint attribute is one
concrete `Floor`, `Color` or `Animal` value; the extra `other` constructor
models a Python object of any other type reaching the `isinstance` dispatch
(every `isinstance` chain in the source falls through to `return False` /
no-op for such a value).
-/

inductive Animal where
  | Frog | Rabbit | Grasshopper | Bird | Chicken
deriving DecidableEq, Repr

inductive Color where
  | Red | Green | Blue | Yellow | Orange
deriving DecidableEq, Repr

/-- Python `Floor(IntEnum)`: First..Fifth with integer values 1..5. -/
inductive Floor where
  | First | Second | Third | Fourth | Fifth
deriving DecidableEq, Repr

/-- The integer value of a floor (`Floor.First = 1`, ..., `Floor.Fifth = 5`). -/
def Floor.val : Floor → Int
  | .First => 1
  | .Second => 2
  | .Third => 3
  | .Fourth => 4
  | .Fifth => 5

/-- A hint attribute: one concrete Floor, Color or Animal value, or any other
Python object (`other`), which every `isinstance` dispatch ignores. -/
inductive Attr where
  | floor (f : Floor)
  | color (c : Color)
  | animal (a : Animal)
  | other
deriving DecidableEq, Repr

/-- Python `FloorAssignment`: the (floor, animal, color) triple. -/
structure FloorAssignment where
  floor : Floor
  animal : Animal
  color : Color
deriving DecidableEq, Repr

/-- The hint variants.  `AbsoluteHint(attr1, attr2)`,
`RelativeHint(attr1, attr2, difference)`, `NeighborHint(attr1, attr2)`;
both source files use these same three shapes. -/
inductive Hint where
  | absolute (attr1 attr2 : Attr)
  | relative (attr1 attr2 : Attr) (difference : Int)
  | neighbor (attr1 attr2 : Attr)
deriving DecidableEq, Repr

/-- Python `list(Floor)` in enum order. -/
def allFloors : List Floor := [.First, .Second, .Third, .Fourth, .Fifth]

/-- Python `list(Animal)` in enum order. -/
def allAnimals : List Animal := [.Frog, .Rabbit, .Grasshopper, .Bird, .Chicken]

/-- Python `list(Color)` in enum order. -/
def allColors : List Color := [.Red, .Green, .Blue, .Yellow, .Orange]

/-- The shared `_check_attr_match(assignment, attr)` helper: `isinstance`
dispatch on the attribute type, comparing the corresponding field; any other
value falls through to `False`. -/
def check_attr_match (assignment : FloorAssignment) : Attr → Bool
  | .floor f => assignment.floor == f
  | .color c => assignment.color == c
  | .animal a => assignment.animal == a
  | .other => false

/-- Python's `for assignment in assignments: if match(assignment): x =
assignment` pattern: the last element satisfying `p`, or `none`. -/
def lastMatch (p : FloorAssignment → Bool) (assignments : List FloorAssignment) :
    Option FloorAssignment :=
  assignments.foldl (fun acc a => if p a then some a else acc) none

namespace Ref
/-! The reference implementation, `count_assignments.py`. -/

/-- Python `AbsoluteHint.check_if_satisfied`: some single assignment matches both
attributes. -/
def absolute_check_if_satisfied (attr1 attr2 : Attr)
    (assignments : List FloorAssignment) : Bool :=
  assignments.any fun a => check_attr_match a attr1 && check_attr_match a attr2

/-- Python `RelativeHint.check_if_satisfied`: the loop keeps the LAST assignment
matching each attribute; if both were found, compare the floor difference,
otherwise `False`. -/
def relative_check_if_satisfied (attr1 attr2 : Attr) (difference : Int)
    (assignments : List FloorAssignment) : Bool :=
  match lastMatch (check_attr_match · attr1) assignments,
        lastMatch (check_attr_match · attr2) assignments with
  | some a1, some a2 => a1.floor.val - a2.floor.val == difference
  | _, _ => false

/-- Python `NeighborHint.check_if_satisfied`: same last-match structure, success
condition `abs(floor difference) == 1`. -/
def neighbor_check_if_satisfied (attr1 attr2 : Attr)
    (assignments : List FloorAssignment) : Bool :=
  match lastMatch (check_attr_match · attr1) assignments,
        lastMatch (check_attr_match · attr2) assignments with
  | some a1, some a2 => (a1.floor.val - a2.floor.val).natAbs == 1
  | _, _ => false

/-- Dispatch of `hint.check_if_satisfied(assignments)` over the three hint
classes of `count_assignments.py`. -/
def check_if_satisfied (h : Hint) (assignments : List FloorAssignment) : Bool :=
  match h with
  | .absolute a1 a2 => absolute_check_if_satisfied a1 a2 assignments
  | .relative a1 a2 d => relative_check_if_satisfied a1 a2 d assignments
  | .neighbor a1 a2 => neighbor_check_if_satisfied a1 a2 assignments

end Ref

/-- One pair `(x, rest)` for each position: pick the element at that position, keeping
the remaining elements in order (the building block of lexicographic
permutation enumeration, as `itertools.permutations` produces). -/
def picks {α : Type} : List α → List (α × List α)
  | [] => []
  | x :: xs => (x, xs) :: (picks xs).map (fun p => (p.1, x :: p.2))

/-- All permutations of `l`, with `fuel` bounding the recursion depth. -/
def permsAux {α : Type} : Nat → List α → List (List α)
  | 0, _ => [[]]
  | fuel + 1, l => (picks l).flatMap fun p => (permsAux fuel p.2).map (p.1 :: ·)

/-- Python `itertools.permutations(l)`: every arrangement of the elements of `l`,
in lexicographic order of positions. -/
def perms {α : Type} (l : List α) : List (List α) := permsAux l.length l

/-- The inner loop `for i, floor in enumerate(floors):
assignment.append(FloorAssignment(floor, animal_perm[i], color_perm[i]))`. -/
def buildAssignment : List Floor → List Animal → List Color →
    List FloorAssignment
  | f :: fs, a :: tlA, c :: tlC =>
      ⟨f, a, c⟩ :: buildAssignment fs tlA tlC
  | _, _, _ => []

namespace Ref

/-- The enumerate-and-filter loop of `count_assignments` (the part after the
empty-hints fast path): over all animal and color permutations, count the
candidates that satisfy every hint. -/
def bruteForceCount (hints : List Hint) : Nat :=
  ((perms allAnimals).flatMap fun animal_perm =>
    (perms allColors).map fun color_perm =>
      buildAssignment allFloors animal_perm color_perm).countP
    fun assignment => hints.all fun h => check_if_satisfied h assignment

/-- Python `count_assignments(hints)` of `count_assignments.py`: empty hint list
returns `5! * 5!` immediately, otherwise enumerate and filter. -/
def count_assignments (hints : List Hint) : Nat :=
  if hints.isEmpty then Nat.factorial 5 * Nat.factorial 5
  else bruteForceCount hints

end Ref

namespace Alt
/-! The constraint-propagation implementation,
`count_assignments_alternative_solution.py`.

Python `set`s of animals/colors are modelled as duplicate-free lists: a
domain set starts as the full enumeration-order set and the only mutation the
source ever performs replaces a whole set by a singleton, so list equality
coincides with set equality on every comparison the code performs, and
`len`/membership agree with the set versions. -/

/-- Python `Domain`: the possible animals and colors for one floor (both start as the
full sets). -/
structure Domain where
  animals : List Animal
  colors : List Color
deriving DecidableEq, Repr

/-- A fresh `Domain()`: `set(Animal)`, `set(Color)`. -/
def Domain.init : Domain := ⟨allAnimals, allColors⟩

/-- Python `Domain.is_empty`. -/
def Domain.is_empty (d : Domain) : Bool :=
  d.animals.length == 0 || d.colors.length == 0

/-- Python `Domain.is_singleton`. -/
def Domain.is_singleton (d : Domain) : Bool :=
  d.animals.length == 1 && d.colors.length == 1

/-- Python `Domain.get_singleton_assignment(floor)`: `Some` exactly when the domain
is a singleton, extracting the unique animal and color. -/
def Domain.get_singleton_assignment (d : Domain) (floor : Floor) :
    Option FloorAssignment :=
  match d.animals, d.colors with
  | [a], [c] => some ⟨floor, a, c⟩
  | _, _ => none

/-- Python `self.domains: Dict[Floor, Domain]`, as a total map. -/
def Domains : Type := Floor → Domain

/-- Python dict comprehension building a fresh `Domain()` for every floor. -/
def initDomains : Domains := fun _ => Domain.init

/-- Python `domains[f] = d` (dict entry assignment). -/
def updateDomains (domains : Domains) (f : Floor) (d : Domain) : Domains :=
  fun f2 => if f2 = f then d else domains f2

/-- The `floor_attr is not None` part of `AbsoluteHint.propagate_constraints`:
one attribute is a floor; pin the other attribute on that floor's domain.
Returns the new domains and whether the domain changed. -/
def propagateFloorCase (floor_attr : Floor) (other_attr : Attr)
    (domains : Domains) : Domains × Bool :=
  let d := domains floor_attr
  let d2 : Domain :=
    match other_attr with
    | .animal a => { d with animals := [a] }
    | .color c => { d with colors := [c] }
    | _ => d
  (updateDomains domains floor_attr d2, decide (d2 ≠ d))

/-- The both-non-floor branch of `AbsoluteHint.propagate_constraints`: an
animal paired with a color must share a floor, so every floor whose domain
still contains both is squashed to that single combination. -/
def propagateBothNonFloor (attr1 attr2 : Attr) (domains : Domains) :
    Domains × Bool :=
  allFloors.foldl
    (fun acc floor =>
      let d := acc.1 floor
      match attr1, attr2 with
      | .animal a, .color c =>
          if a ∈ d.animals ∧ c ∈ d.colors then
            let d2 : Domain := ⟨[a], [c]⟩
            (updateDomains acc.1 floor d2, acc.2 || decide (d2 ≠ d))
          else acc
      | .color c, .animal a =>
          if a ∈ d.animals ∧ c ∈ d.colors then
            let d2 : Domain := ⟨[a], [c]⟩
            (updateDomains acc.1 floor d2, acc.2 || decide (d2 ≠ d))
          else acc
      | _, _ => acc)
    (domains, false)

/-- Python `AbsoluteHint.propagate_constraints`: `attr1` is checked for floor-ness
first, then `attr2`; otherwise the both-non-floor branch runs. -/
def absolute_propagate_constraints (attr1 attr2 : Attr) (domains : Domains) :
    Domains × Bool :=
  match attr1, attr2 with
  | .floor f, o => propagateFloorCase f o domains
  | o, .floor f => propagateFloorCase f o domains
  | _, _ => propagateBothNonFloor attr1 attr2 domains

/-- The `propagate_constraints` dispatch: Relative and Neighbor hints propagate
nothing (both return `changed = False`). -/
def propagate_constraints (h : Hint) (domains : Domains) : Domains × Bool :=
  match h with
  | .absolute a1 a2 => absolute_propagate_constraints a1 a2 domains
  | .relative _ _ _ => (domains, false)
  | .neighbor _ _ => (domains, false)

/-- One iteration of the `while` body in `propagate_all_constraints`: apply
every hint once, OR-ing the per-hint `changed` flags. -/
def propagateOnePass (hints : List Hint) (domains : Domains) : Domains × Bool :=
  hints.foldl
    (fun acc h =>
      let r := propagate_constraints h acc.1
      (r.1, acc.2 || r.2))
    (domains, false)

/-- Python `ConstraintPropagator.propagate_all_constraints`, fuelled by the remaining
iteration budget (`max_iterations = 100` initially).  The returned boolean is
Python's `iterations < max_iterations`: `false` when the budget was exhausted,
and also when convergence happened only on the very last allowed iteration. -/
def propagate_all_constraints (hints : List Hint) :
    Nat → Domains → Domains × Bool
  | 0, domains => (domains, false)
  | fuel + 1, domains =>
      let p := propagateOnePass hints domains
      if p.2 then propagate_all_constraints hints fuel p.1
      else (p.1, decide (0 < fuel))

/-- Python `ConstraintPropagator.has_empty_domains`. -/
def has_empty_domains (domains : Domains) : Bool :=
  allFloors.any fun f => (domains f).is_empty

/-- Python `ConstraintPropagator.get_singleton_assignments`: the singleton
assignments, in floor order. -/
def get_singleton_assignments (domains : Domains) : List FloorAssignment :=
  allFloors.filterMap fun f => (domains f).get_singleton_assignment f

/-- Python `ConstraintPropagator.get_remaining_assignments`: floors whose domain is
not yet a singleton, with their remaining animal and color options. -/
def get_remaining_assignments (domains : Domains) :
    List (Floor × List Animal × List Color) :=
  (allFloors.filter fun f => !(domains f).is_singleton).map
    fun f => (f, (domains f).animals, (domains f).colors)

/-- The alternative file's `AbsoluteHint.check_if_satisfied`: its inline
`isinstance` chains compute exactly the shared attribute-match predicate. -/
def absolute_check_if_satisfied (attr1 attr2 : Attr)
    (assignments : List FloorAssignment) : Bool :=
  assignments.any fun a => check_attr_match a attr1 && check_attr_match a attr2

/-- The alternative file's `RelativeHint.check_if_satisfied`: vacuously true
below 2 elements, otherwise collect ALL assignments matching each attribute
and test the full cross product for the required floor difference. -/
def relative_check_if_satisfied (attr1 attr2 : Attr) (difference : Int)
    (assignments : List FloorAssignment) : Bool :=
  if assignments.length < 2 then true
  else
    let attr1_assignments := assignments.filter (check_attr_match · attr1)
    let attr2_assignments := assignments.filter (check_attr_match · attr2)
    attr1_assignments.any fun a1 =>
      attr2_assignments.any fun a2 =>
        a1.floor.val - a2.floor.val == difference

/-- The alternative file's `NeighborHint.check_if_satisfied`: same structure,
success condition `abs(floor difference) == 1`. -/
def neighbor_check_if_satisfied (attr1 attr2 : Attr)
    (assignments : List FloorAssignment) : Bool :=
  if assignments.length < 2 then true
  else
    let attr1_assignments := assignments.filter (check_attr_match · attr1)
    let attr2_assignments := assignments.filter (check_attr_match · attr2)
    attr1_assignments.any fun a1 =>
      attr2_assignments.any fun a2 =>
        (a1.floor.val - a2.floor.val).natAbs == 1

/-- The `check_if_satisfied` dispatch for the alternative file's hint classes. -/
def check_if_satisfied (h : Hint) (assignments : List FloorAssignment) : Bool :=
  match h with
  | .absolute a1 a2 => absolute_check_if_satisfied a1 a2 assignments
  | .relative a1 a2 d => relative_check_if_satisfied a1 a2 d assignments
  | .neighbor a1 a2 => neighbor_check_if_satisfied a1 a2 assignments

/-- Python `verify_all_hints(assignments, hints)`. -/
def verify_all_hints (assignments : List FloorAssignment)
    (hints : List Hint) : Bool :=
  hints.all fun h => check_if_satisfied h assignments

/-- The fallback enumeration at the end of the alternative
`count_assignments` (same loops as the reference file, but using the
alternative file's check functions). -/
def bruteForceCount (hints : List Hint) : Nat :=
  ((perms allAnimals).flatMap fun animal_perm =>
    (perms allColors).map fun color_perm =>
      buildAssignment allFloors animal_perm color_perm).countP
    fun assignment => hints.all fun h => check_if_satisfied h assignment

/-- `count_assignments(hints)` of
`count_assignments_alternative_solution.py`: empty hints fast path, then
constraint propagation; `0` on budget exhaustion or an empty domain; if every
floor's domain is a singleton, verify the singleton assignments and return
`1` or `0`; otherwise fall back to full enumeration. -/
def count_assignments (hints : List Hint) : Nat :=
  if hints.isEmpty then Nat.factorial 5 * Nat.factorial 5
  else
    let result := propagate_all_constraints hints 100 initDomains
    if !result.2 then 0
    else if has_empty_domains result.1 then 0
    else
      let singleton_assignments := get_singleton_assignments result.1
      let remaining := get_remaining_assignments result.1
      if remaining.isEmpty then
        if verify_all_hints singleton_assignments hints then 1 else 0
      else
        bruteForceCount hints

end Alt

/-- A full 5-floor assignment in the sense of the data-model invariant: the
floors are exactly the 5 floors, the animals exactly the 5 animals and the
colors exactly the 5 colors (a bijection floor ↔ animal ↔ color). -/
def isFullAssignment (assignments : List FloorAssignment) : Prop :=
  (assignments.map FloorAssignment.floor).Perm allFloors ∧
  (assignments.map FloorAssignment.animal).Perm allAnimals ∧
  (assignments.map FloorAssignment.color).Perm allColors

/-- First end-to-end scenario of the spec (expected count 2). -/
def exampleHints1 : List Hint :=
  [.absolute (.animal .Rabbit) (.floor .First),
   .absolute (.animal .Chicken) (.floor .Second),
   .absolute (.floor .Third) (.color .Red),
   .absolute (.animal .Bird) (.floor .Fifth),
   .absolute (.animal .Grasshopper) (.color .Orange),
   .neighbor (.color .Yellow) (.color .Green)]

/-- Second end-to-end scenario of the spec (expected count 4). -/
def exampleHints2 : List Hint :=
  [.absolute (.animal .Bird) (.floor .Fifth),
   .absolute (.floor .First) (.color .Green),
   .absolute (.animal .Frog) (.color .Yellow),
   .neighbor (.animal .Frog) (.animal .Grasshopper),
   .neighbor (.color .Red) (.color .Orange),
   .relative (.animal .Chicken) (.color .Blue) (-4)]

/-- Third end-to-end scenario of the spec (expected count 1728). -/
def exampleHints3 : List Hint :=
  [.relative (.animal .Rabbit) (.color .Green) (-2)]

/-- Fourth end-to-end scenario of the spec (expected count 4608). -/
def exampleHints4 : List Hint :=
  [.neighbor (.animal .Rabbit) (.color .Green)]

/-- Probe hint list exhibiting the propagation bug: a single
AbsoluteHint(Animal.Frog, Color.Red). -/
def probeHints : List Hint := [.absolute (.animal .Frog) (.color .Red)]

/-- The inner color-permutation loop of the reference enumeration, for one
fixed animal permutation: how many color permutations give a candidate
satisfying every hint. -/
def Ref.innerCount (hints : List Hint) (animal_perm : List Animal) : Nat :=
  ((perms allColors).map fun color_perm =>
    buildAssignment allFloors animal_perm color_perm).countP
    fun assignment => hints.all fun h => Ref.check_if_satisfied h assignment

/-- The i-th block of 10 animal permutations (the 120 permutations split
into 12 blocks, to keep each kernel evaluation small). -/
def animalPermChunk (i : Nat) : List (List Animal) :=
  ((perms allAnimals).drop (10 * i)).take 10

/-!  Helper lemmas. -/

/-- The `countP` count distributes over `flatMap` as a sum of per-block counts (used to
keep kernel evaluation of the 14400-candidate enumeration shallow). -/
theorem countP_flatMap {α β : Type} (l : List α) (f : α → List β) (p : β → Bool) :
    (l.flatMap f).countP p = (l.map fun x => (f x).countP p).sum := by
  induction l with
  | nil => rfl
  | cons x xs ih => simp [List.flatMap_cons, List.countP_append, ih]

/-- The reference brute-force count, as a sum over animal permutations of
per-permutation counts over color permutations. -/
theorem Ref.bruteForceCount_eq_sum (hints : List Hint) :
    Ref.bruteForceCount hints =
      ((perms allAnimals).map (Ref.innerCount hints)).sum := by
  rw [Ref.bruteForceCount, countP_flatMap]
  rfl

/-- The 120 animal permutations are exactly the 12 blocks of 10, in
order. -/
theorem animalPerms_chunked :
    perms allAnimals =
      animalPermChunk 0 ++ animalPermChunk 1 ++ animalPermChunk 2 ++
      animalPermChunk 3 ++ animalPermChunk 4 ++ animalPermChunk 5 ++
      animalPermChunk 6 ++ animalPermChunk 7 ++ animalPermChunk 8 ++
      animalPermChunk 9 ++ animalPermChunk 10 ++ animalPermChunk 11 := by
  decide

/-- Block 0 of the enumeration for `probeHints`. -/
theorem probe_chunkSum_0 :
    ((animalPermChunk 0).map (Ref.innerCount probeHints)).sum = 240 := by
  decide

/-- Block 1 of the enumeration for `probeHints`. -/
theorem probe_chunkSum_1 :
    ((animalPermChunk 1).map (Ref.innerCount probeHints)).sum = 240 := by
  decide

/-- Block 2 of the enumeration for `probeHints`. -/
theorem probe_chunkSum_2 :
    ((animalPermChunk 2).map (Ref.innerCount probeHints)).sum = 240 := by
  decide

/-- Block 3 of the enumeration for `probeHints`. -/
theorem probe_chunkSum_3 :
    ((animalPermChunk 3).map (Ref.innerCount probeHints)).sum = 240 := by
  decide

/-- Block 4 of the enumeration for `probeHints`. -/
theorem probe_chunkSum_4 :
    ((animalPermChunk 4).map (Ref.innerCount probeHints)).sum = 240 := by
  decide

/-- Block 5 of the enumeration for `probeHints`. -/
theorem probe_chunkSum_5 :
    ((animalPermChunk 5).map (Ref.innerCount probeHints)).sum = 240 := by
  decide

/-- Block 6 of the enumeration for `probeHints`. -/
theorem probe_chunkSum_6 :
    ((animalPermChunk 6).map (Ref.innerCount probeHints)).sum = 240 := by
  decide

/-- Block 7 of the enumeration for `probeHints`. -/
theorem probe_chunkSum_7 :
    ((animalPermChunk 7).map (Ref.innerCount probeHints)).sum = 240 := by
  decide

/-- Block 8 of the enumeration for `probeHints`. -/
theorem probe_chunkSum_8 :
    ((animalPermChunk 8).map (Ref.innerCount probeHints)).sum = 240 := by
  decide

/-- Block 9 of the enumeration for `probeHints`. -/
theorem probe_chunkSum_9 :
    ((animalPermChunk 9).map (Ref.innerCount probeHints)).sum = 240 := by
  decide

/-- Block 10 of the enumeration for `probeHints`. -/
theorem probe_chunkSum_10 :
    ((animalPermChunk 10).map (Ref.innerCount probeHints)).sum = 240 := by
  decide

/-- Block 11 of the enumeration for `probeHints`. -/
theorem probe_chunkSum_11 :
    ((animalPermChunk 11).map (Ref.innerCount probeHints)).sum = 240 := by
  decide

/-- Block 0 of the enumeration for `exampleHints1`. -/
theorem ex1_chunkSum_0 :
    ((animalPermChunk 0).map (Ref.innerCount exampleHints1)).sum = 0 := by
  decide

/-- Block 1 of the enumeration for `exampleHints1`. -/
theorem ex1_chunkSum_1 :
    ((animalPermChunk 1).map (Ref.innerCount exampleHints1)).sum = 0 := by
  decide

/-- Block 2 of the enumeration for `exampleHints1`. -/
theorem ex1_chunkSum_2 :
    ((animalPermChunk 2).map (Ref.innerCount exampleHints1)).sum = 0 := by
  decide

/-- Block 3 of the enumeration for `exampleHints1`. -/
theorem ex1_chunkSum_3 :
    ((animalPermChunk 3).map (Ref.innerCount exampleHints1)).sum = 0 := by
  decide

/-- Block 4 of the enumeration for `exampleHints1`. -/
theorem ex1_chunkSum_4 :
    ((animalPermChunk 4).map (Ref.innerCount exampleHints1)).sum = 2 := by
  decide

/-- Block 5 of the enumeration for `exampleHints1`. -/
theorem ex1_chunkSum_5 :
    ((animalPermChunk 5).map (Ref.innerCount exampleHints1)).sum = 0 := by
  decide

/-- Block 6 of the enumeration for `exampleHints1`. -/
theorem ex1_chunkSum_6 :
    ((animalPermChunk 6).map (Ref.innerCount exampleHints1)).sum = 0 := by
  decide

/-- Block 7 of the enumeration for `exampleHints1`. -/
theorem ex1_chunkSum_7 :
    ((animalPermChunk 7).map (Ref.innerCount exampleHints1)).sum = 0 := by
  decide

/-- Block 8 of the enumeration for `exampleHints1`. -/
theorem ex1_chunkSum_8 :
    ((animalPermChunk 8).map (Ref.innerCount exampleHints1)).sum = 0 := by
  decide

/-- Block 9 of the enumeration for `exampleHints1`. -/
theorem ex1_chunkSum_9 :
    ((animalPermChunk 9).map (Ref.innerCount exampleHints1)).sum = 0 := by
  decide

/-- Block 10 of the enumeration for `exampleHints1`. -/
theorem ex1_chunkSum_10 :
    ((animalPermChunk 10).map (Ref.innerCount exampleHints1)).sum = 0 := by
  decide

/-- Block 11 of the enumeration for `exampleHints1`. -/
theorem ex1_chunkSum_11 :
    ((animalPermChunk 11).map (Ref.innerCount exampleHints1)).sum = 0 := by
  decide

/-- Block 0 of the enumeration for `exampleHints2`. -/
theorem ex2_chunkSum_0 :
    ((animalPermChunk 0).map (Ref.innerCount exampleHints2)).sum = 0 := by
  decide

/-- Block 1 of the enumeration for `exampleHints2`. -/
theorem ex2_chunkSum_1 :
    ((animalPermChunk 1).map (Ref.innerCount exampleHints2)).sum = 0 := by
  decide

/-- Block 2 of the enumeration for `exampleHints2`. -/
theorem ex2_chunkSum_2 :
    ((animalPermChunk 2).map (Ref.innerCount exampleHints2)).sum = 0 := by
  decide

/-- Block 3 of the enumeration for `exampleHints2`. -/
theorem ex2_chunkSum_3 :
    ((animalPermChunk 3).map (Ref.innerCount exampleHints2)).sum = 0 := by
  decide

/-- Block 4 of the enumeration for `exampleHints2`. -/
theorem ex2_chunkSum_4 :
    ((animalPermChunk 4).map (Ref.innerCount exampleHints2)).sum = 0 := by
  decide

/-- Block 5 of the enumeration for `exampleHints2`. -/
theorem ex2_chunkSum_5 :
    ((animalPermChunk 5).map (Ref.innerCount exampleHints2)).sum = 0 := by
  decide

/-- Block 6 of the enumeration for `exampleHints2`. -/
theorem ex2_chunkSum_6 :
    ((animalPermChunk 6).map (Ref.innerCount exampleHints2)).sum = 0 := by
  decide

/-- Block 7 of the enumeration for `exampleHints2`. -/
theorem ex2_chunkSum_7 :
    ((animalPermChunk 7).map (Ref.innerCount exampleHints2)).sum = 0 := by
  decide

/-- Block 8 of the enumeration for `exampleHints2`. -/
theorem ex2_chunkSum_8 :
    ((animalPermChunk 8).map (Ref.innerCount exampleHints2)).sum = 0 := by
  decide

/-- Block 9 of the enumeration for `exampleHints2`. -/
theorem ex2_chunkSum_9 :
    ((animalPermChunk 9).map (Ref.innerCount exampleHints2)).sum = 2 := by
  decide

/-- Block 10 of the enumeration for `exampleHints2`. -/
theorem ex2_chunkSum_10 :
    ((animalPermChunk 10).map (Ref.innerCount exampleHints2)).sum = 2 := by
  decide

/-- Block 11 of the enumeration for `exampleHints2`. -/
theorem ex2_chunkSum_11 :
    ((animalPermChunk 11).map (Ref.innerCount exampleHints2)).sum = 0 := by
  decide

/-- Block 0 of the enumeration for `exampleHints3`. -/
theorem ex3_chunkSum_0 :
    ((animalPermChunk 0).map (Ref.innerCount exampleHints3)).sum = 192 := by
  decide

/-- Block 1 of the enumeration for `exampleHints3`. -/
theorem ex3_chunkSum_1 :
    ((animalPermChunk 1).map (Ref.innerCount exampleHints3)).sum = 96 := by
  decide

/-- Block 2 of the enumeration for `exampleHints3`. -/
theorem ex3_chunkSum_2 :
    ((animalPermChunk 2).map (Ref.innerCount exampleHints3)).sum = 144 := by
  decide

/-- Block 3 of the enumeration for `exampleHints3`. -/
theorem ex3_chunkSum_3 :
    ((animalPermChunk 3).map (Ref.innerCount exampleHints3)).sum = 240 := by
  decide

/-- Block 4 of the enumeration for `exampleHints3`. -/
theorem ex3_chunkSum_4 :
    ((animalPermChunk 4).map (Ref.innerCount exampleHints3)).sum = 240 := by
  decide

/-- Block 5 of the enumeration for `exampleHints3`. -/
theorem ex3_chunkSum_5 :
    ((animalPermChunk 5).map (Ref.innerCount exampleHints3)).sum = 144 := by
  decide

/-- Block 6 of the enumeration for `exampleHints3`. -/
theorem ex3_chunkSum_6 :
    ((animalPermChunk 6).map (Ref.innerCount exampleHints3)).sum = 96 := by
  decide

/-- Block 7 of the enumeration for `exampleHints3`. -/
theorem ex3_chunkSum_7 :
    ((animalPermChunk 7).map (Ref.innerCount exampleHints3)).sum = 96 := by
  decide

/-- Block 8 of the enumeration for `exampleHints3`. -/
theorem ex3_chunkSum_8 :
    ((animalPermChunk 8).map (Ref.innerCount exampleHints3)).sum = 144 := by
  decide

/-- Block 9 of the enumeration for `exampleHints3`. -/
theorem ex3_chunkSum_9 :
    ((animalPermChunk 9).map (Ref.innerCount exampleHints3)).sum = 96 := by
  decide

/-- Block 10 of the enumeration for `exampleHints3`. -/
theorem ex3_chunkSum_10 :
    ((animalPermChunk 10).map (Ref.innerCount exampleHints3)).sum = 144 := by
  decide

/-- Block 11 of the enumeration for `exampleHints3`. -/
theorem ex3_chunkSum_11 :
    ((animalPermChunk 11).map (Ref.innerCount exampleHints3)).sum = 96 := by
  decide

/-- Block 0 of the enumeration for `exampleHints4`. -/
theorem ex4_chunkSum_0 :
    ((animalPermChunk 0).map (Ref.innerCount exampleHints4)).sum = 456 := by
  decide

/-- Block 1 of the enumeration for `exampleHints4`. -/
theorem ex4_chunkSum_1 :
    ((animalPermChunk 1).map (Ref.innerCount exampleHints4)).sum = 408 := by
  decide

/-- Block 2 of the enumeration for `exampleHints4`. -/
theorem ex4_chunkSum_2 :
    ((animalPermChunk 2).map (Ref.innerCount exampleHints4)).sum = 288 := by
  decide

/-- Block 3 of the enumeration for `exampleHints4`. -/
theorem ex4_chunkSum_3 :
    ((animalPermChunk 3).map (Ref.innerCount exampleHints4)).sum = 240 := by
  decide

/-- Block 4 of the enumeration for `exampleHints4`. -/
theorem ex4_chunkSum_4 :
    ((animalPermChunk 4).map (Ref.innerCount exampleHints4)).sum = 288 := by
  decide

/-- Block 5 of the enumeration for `exampleHints4`. -/
theorem ex4_chunkSum_5 :
    ((animalPermChunk 5).map (Ref.innerCount exampleHints4)).sum = 432 := by
  decide

/-- Block 6 of the enumeration for `exampleHints4`. -/
theorem ex4_chunkSum_6 :
    ((animalPermChunk 6).map (Ref.innerCount exampleHints4)).sum = 408 := by
  decide

/-- Block 7 of the enumeration for `exampleHints4`. -/
theorem ex4_chunkSum_7 :
    ((animalPermChunk 7).map (Ref.innerCount exampleHints4)).sum = 408 := by
  decide

/-- Block 8 of the enumeration for `exampleHints4`. -/
theorem ex4_chunkSum_8 :
    ((animalPermChunk 8).map (Ref.innerCount exampleHints4)).sum = 432 := by
  decide

/-- Block 9 of the enumeration for `exampleHints4`. -/
theorem ex4_chunkSum_9 :
    ((animalPermChunk 9).map (Ref.innerCount exampleHints4)).sum = 408 := by
  decide

/-- Block 10 of the enumeration for `exampleHints4`. -/
theorem ex4_chunkSum_10 :
    ((animalPermChunk 10).map (Ref.innerCount exampleHints4)).sum = 432 := by
  decide

/-- Block 11 of the enumeration for `exampleHints4`. -/
theorem ex4_chunkSum_11 :
    ((animalPermChunk 11).map (Ref.innerCount exampleHints4)).sum = 408 := by
  decide

/-- On a nonempty hint list, `count_assignments` is the enumerate-and-filter
loop. -/
theorem Ref.count_assignments_cons (h : Hint) (t : List Hint) :
    Ref.count_assignments (h :: t) = Ref.bruteForceCount (h :: t) := rfl

/-- Unfolding of `count_assignments` on the nonempty probe hint list. -/
theorem Ref.count_assignments_probe :
    Ref.count_assignments probeHints = Ref.bruteForceCount probeHints := rfl

/-- Unfolding of `count_assignments` on the first scenario. -/
theorem Ref.count_assignments_ex1 :
    Ref.count_assignments exampleHints1 = Ref.bruteForceCount exampleHints1 := rfl

/-- Unfolding of `count_assignments` on the second scenario. -/
theorem Ref.count_assignments_ex2 :
    Ref.count_assignments exampleHints2 = Ref.bruteForceCount exampleHints2 := rfl

/-- Unfolding of `count_assignments` on the third scenario. -/
theorem Ref.count_assignments_ex3 :
    Ref.count_assignments exampleHints3 = Ref.bruteForceCount exampleHints3 := rfl

/-- Unfolding of `count_assignments` on the fourth scenario. -/
theorem Ref.count_assignments_ex4 :
    Ref.count_assignments exampleHints4 = Ref.bruteForceCount exampleHints4 := rfl

/-- If no element satisfies `p`, the last-match fold returns its
accumulator. -/
theorem foldl_lastMatch_of_none (p : FloorAssignment → Bool)
    (l : List FloorAssignment) (acc : Option FloorAssignment)
    (h : ∀ a ∈ l, p a = false) :
    l.foldl (fun acc a => if p a then some a else acc) acc = acc := by
  induction l generalizing acc with
  | nil => rfl
  | cons x xs ih =>
    have hx : p x = false := h x (List.mem_cons_self x xs)
    simp only [List.foldl_cons, hx, Bool.false_eq_true, if_false]
    exact ih acc fun a ha => h a (List.mem_cons_of_mem x ha)

/-- Whatever the last-match fold returns either came from the list (and
satisfies `p`) or is the initial accumulator. -/
theorem foldl_lastMatch_eq_some (p : FloorAssignment → Bool)
    (l : List FloorAssignment) (acc : Option FloorAssignment)
    (b : FloorAssignment)
    (h : l.foldl (fun acc a => if p a then some a else acc) acc = some b) :
    (b ∈ l ∧ p b = true) ∨ acc = some b := by
  induction l generalizing acc with
  | nil => exact Or.inr h
  | cons x xs ih =>
    rw [List.foldl_cons] at h
    rcases ih _ h with h1 | h2
    · exact Or.inl ⟨List.mem_cons_of_mem x h1.1, h1.2⟩
    · by_cases hx : p x = true
      · rw [if_pos hx] at h2
        obtain rfl : x = b := Option.some.inj h2
        exact Or.inl ⟨List.mem_cons_self x xs, hx⟩
      · rw [if_neg hx] at h2
        exact Or.inr h2

/-- If some element satisfies `p`, the last-match fold returns `some`. -/
theorem foldl_lastMatch_isSome (p : FloorAssignment → Bool)
    (l : List FloorAssignment) (acc : Option FloorAssignment)
    (h : ∃ a ∈ l, p a = true) :
    ∃ b, l.foldl (fun acc a => if p a then some a else acc) acc = some b := by
  induction l generalizing acc with
  | nil => simp at h
  | cons x xs ih =>
    rw [List.foldl_cons]
    by_cases hxs : ∃ a ∈ xs, p a = true
    · exact ih _ hxs
    · obtain ⟨a, ha, hpa⟩ := h
      have hax : a = x := by
        rcases List.mem_cons.mp ha with h' | h'
        · exact h'
        · exact absurd ⟨a, h', hpa⟩ hxs
      subst hax
      rw [if_pos hpa]
      refine ⟨a, ?_⟩
      apply foldl_lastMatch_of_none
      intro y hy
      by_contra hpy
      exact hxs ⟨y, hy, Bool.of_not_eq_false hpy⟩

/-- The `lastMatch` helper returns `none` when no element matches. -/
theorem lastMatch_eq_none (p : FloorAssignment → Bool)
    (l : List FloorAssignment) (h : ∀ a ∈ l, p a = false) :
    lastMatch p l = none :=
  foldl_lastMatch_of_none p l none h

/-- The `lastMatch` helper only returns elements of the list satisfying `p`. -/
theorem lastMatch_mem (p : FloorAssignment → Bool) (l : List FloorAssignment)
    (b : FloorAssignment) (h : lastMatch p l = some b) :
    b ∈ l ∧ p b = true := by
  rcases foldl_lastMatch_eq_some p l none b h with h1 | h2
  · exact h1
  · cases h2

/-- The `lastMatch` helper finds a match when one exists. -/
theorem lastMatch_isSome (p : FloorAssignment → Bool)
    (l : List FloorAssignment) (h : ∃ a ∈ l, p a = true) :
    ∃ b, lastMatch p l = some b :=
  foldl_lastMatch_isSome p l none h

/-- Every pick re-assembles to a permutation of the original list. -/
theorem picks_perm {α : Type} (l : List α) :
    ∀ p ∈ picks l, (p.1 :: p.2).Perm l := by
  induction l with
  | nil => intro p hp; cases hp
  | cons x xs ih =>
    intro p hp
    rw [picks] at hp
    rcases List.mem_cons.mp hp with h | h
    · subst h; exact List.Perm.refl _
    · obtain ⟨q, hq, rfl⟩ := List.mem_map.mp h
      exact (List.Perm.swap x q.1 q.2).trans ((ih q hq).cons x)

/-- A pick has one element fewer than the original list. -/
theorem picks_length {α : Type} (l : List α) :
    ∀ p ∈ picks l, p.2.length + 1 = l.length := by
  intro p hp
  have := (picks_perm l p hp).length_eq
  simpa using this

/-- Elements of `permsAux` are permutations of the input (given enough
fuel). -/
theorem permsAux_perm {α : Type} :
    ∀ (fuel : Nat) (l : List α), l.length = fuel →
      ∀ m ∈ permsAux fuel l, m.Perm l := by
  intro fuel
  induction fuel with
  | zero =>
    intro l hl m hm
    rw [List.length_eq_zero] at hl
    subst hl
    rw [permsAux, List.mem_singleton] at hm
    subst hm
    exact List.Perm.refl _
  | succ n ih =>
    intro l hl m hm
    rw [permsAux, List.mem_flatMap] at hm
    obtain ⟨p, hp, hm⟩ := hm
    obtain ⟨q, hq, rfl⟩ := List.mem_map.mp hm
    have hlen : p.2.length = n := by
      have := picks_length l p hp
      omega
    exact ((ih p.2 hlen q hq).cons p.1).trans (picks_perm l p hp)

/-- Every enumerated permutation is a permutation of the input list. -/
theorem perms_perm {α : Type} (l : List α) :
    ∀ m ∈ perms l, m.Perm l :=
  permsAux_perm l.length l rfl

/-- The candidate builder's three projections, when the three input lists
have equal length. -/
theorem buildAssignment_map (fs : List Floor) :
    ∀ (animals : List Animal) (colors : List Color),
      fs.length = animals.length → fs.length = colors.length →
      (buildAssignment fs animals colors).map FloorAssignment.floor = fs ∧
      (buildAssignment fs animals colors).map FloorAssignment.animal = animals ∧
      (buildAssignment fs animals colors).map FloorAssignment.color = colors := by
  induction fs with
  | nil =>
    intro animals colors ha hc
    rw [List.length_nil] at ha hc
    rw [eq_comm, List.length_eq_zero] at ha hc
    subst ha; subst hc
    exact ⟨rfl, rfl, rfl⟩
  | cons f fs ih =>
    intro animals colors ha hc
    cases animals with
    | nil => simp at ha
    | cons a tlA =>
      cases colors with
      | nil => simp at hc
      | cons c tlC =>
        simp only [List.length_cons, Nat.succ.injEq] at ha hc
        obtain ⟨h1, h2, h3⟩ := ih tlA tlC ha hc
        rw [buildAssignment]
        simp only [List.map_cons, h1, h2, h3]
        exact ⟨trivial, trivial, trivial⟩

/-- In a full assignment, at most one assignment matches a given attribute. -/
theorem full_match_unique (assignments : List FloorAssignment)
    (h : isFullAssignment assignments) (attr : Attr) (a b : FloorAssignment)
    (ha : a ∈ assignments) (hb : b ∈ assignments)
    (hpa : check_attr_match a attr = true)
    (hpb : check_attr_match b attr = true) : a = b := by
  obtain ⟨hf, han, hc⟩ := h
  cases attr with
  | floor f =>
    have h1 : a.floor = f := by simpa [check_attr_match] using hpa
    have h2 : b.floor = f := by simpa [check_attr_match] using hpb
    have hnd : (assignments.map FloorAssignment.floor).Nodup :=
      hf.symm.nodup (by decide)
    exact List.inj_on_of_nodup_map hnd ha hb (h1.trans h2.symm)
  | color c =>
    have h1 : a.color = c := by simpa [check_attr_match] using hpa
    have h2 : b.color = c := by simpa [check_attr_match] using hpb
    have hnd : (assignments.map FloorAssignment.color).Nodup :=
      hc.symm.nodup (by decide)
    exact List.inj_on_of_nodup_map hnd ha hb (h1.trans h2.symm)
  | animal an =>
    have h1 : a.animal = an := by simpa [check_attr_match] using hpa
    have h2 : b.animal = an := by simpa [check_attr_match] using hpb
    have hnd : (assignments.map FloorAssignment.animal).Nodup :=
      han.symm.nodup (by decide)
    exact List.inj_on_of_nodup_map hnd ha hb (h1.trans h2.symm)
  | other => simp [check_attr_match] at hpa

/-- In a full assignment, every concrete Floor/Color/Animal attribute is
matched by some assignment. -/
theorem full_match_exists (assignments : List FloorAssignment)
    (h : isFullAssignment assignments) (attr : Attr) (hne : attr ≠ .other) :
    ∃ a ∈ assignments, check_attr_match a attr = true := by
  obtain ⟨hf, han, hc⟩ := h
  cases attr with
  | floor f =>
    have hmem : f ∈ assignments.map FloorAssignment.floor :=
      hf.mem_iff.mpr (by cases f <;> decide)
    obtain ⟨a, ha, rfl⟩ := List.mem_map.mp hmem
    exact ⟨a, ha, by simp [check_attr_match]⟩
  | color c =>
    have hmem : c ∈ assignments.map FloorAssignment.color :=
      hc.mem_iff.mpr (by cases c <;> decide)
    obtain ⟨a, ha, rfl⟩ := List.mem_map.mp hmem
    exact ⟨a, ha, by simp [check_attr_match]⟩
  | animal an =>
    have hmem : an ∈ assignments.map FloorAssignment.animal :=
      han.mem_iff.mpr (by cases an <;> decide)
    obtain ⟨a, ha, rfl⟩ := List.mem_map.mp hmem
    exact ⟨a, ha, by simp [check_attr_match]⟩
  | other => exact absurd rfl hne

/-- Two floors with equal integer value are equal. -/
theorem Floor.val_inj (f g : Floor) (h : f.val = g.val) : f = g := by
  cases f <;> cases g <;> first | rfl | simp [Floor.val] at h

/-- C7: on every full 5-floor assignment, a Relative hint with difference 0
is satisfied exactly when the corresponding Absolute hint is: both demand
that the two attributes land on the very same floor. -/
theorem c7_relative_zero_degenerates_to_absolute
    (assignments : List FloorAssignment) (h : isFullAssignment assignments)
    (attr1 attr2 : Attr) :
    Ref.relative_check_if_satisfied attr1 attr2 0 assignments =
      Ref.absolute_check_if_satisfied attr1 attr2 assignments := by
  by_cases h1 : attr1 = Attr.other
  · subst h1
    have hnone : lastMatch (check_attr_match · Attr.other) assignments = none :=
      lastMatch_eq_none _ _ fun a _ => rfl
    have habs :
        Ref.absolute_check_if_satisfied Attr.other attr2 assignments = false := by
      simp [Ref.absolute_check_if_satisfied, check_attr_match]
    rw [Ref.relative_check_if_satisfied, hnone, habs]
  · by_cases h2 : attr2 = Attr.other
    · subst h2
      have hnone : lastMatch (check_attr_match · Attr.other) assignments = none :=
        lastMatch_eq_none _ _ fun a _ => rfl
      have habs :
          Ref.absolute_check_if_satisfied attr1 Attr.other assignments = false := by
        simp [Ref.absolute_check_if_satisfied, check_attr_match]
      rw [Ref.relative_check_if_satisfied, hnone, habs]
      cases lastMatch (check_attr_match · attr1) assignments <;> rfl
    · obtain ⟨b1, hb1⟩ := lastMatch_isSome (check_attr_match · attr1) assignments
        (full_match_exists assignments h attr1 h1)
      obtain ⟨b2, hb2⟩ := lastMatch_isSome (check_attr_match · attr2) assignments
        (full_match_exists assignments h attr2 h2)
      obtain ⟨hb1m, hb1p⟩ := lastMatch_mem _ _ _ hb1
      obtain ⟨hb2m, hb2p⟩ := lastMatch_mem _ _ _ hb2
      rw [Ref.relative_check_if_satisfied, hb1, hb2]
      rw [Bool.eq_iff_iff]
      constructor
      · intro hrel
        have hval : b1.floor.val - b2.floor.val = 0 := by
          simpa using hrel
        have hfl : b1.floor = b2.floor := Floor.val_inj _ _ (by omega)
        have hnd : (assignments.map FloorAssignment.floor).Nodup :=
          h.1.symm.nodup (by decide)
        have hb12 : b1 = b2 := List.inj_on_of_nodup_map hnd hb1m hb2m hfl
        rw [Ref.absolute_check_if_satisfied, List.any_eq_true]
        exact ⟨b1, hb1m, by rw [hb1p, hb12, hb2p]; rfl⟩
      · intro habs
        obtain ⟨a, ha, hpa⟩ :=
          List.any_eq_true.mp (by rwa [Ref.absolute_check_if_satisfied] at habs)
        have hpa1 : check_attr_match a attr1 = true :=
          (Bool.and_eq_true _ _).mp hpa |>.1
        have hpa2 : check_attr_match a attr2 = true :=
          (Bool.and_eq_true _ _).mp hpa |>.2
        have e1 : a = b1 :=
          full_match_unique assignments h attr1 a b1 ha hb1m hpa1 hb1p
        have e2 : a = b2 :=
          full_match_unique assignments h attr2 a b2 ha hb2m hpa2 hb2p
        rw [← e1, ← e2]
        simp

/-- C7 witness: a concrete full assignment and attribute pair. -/
theorem c7_relative_zero_degenerates_to_absolute_witness :
    isFullAssignment (buildAssignment allFloors allAnimals allColors) ∧
    Ref.relative_check_if_satisfied (.animal .Frog) (.color .Red) 0
        (buildAssignment allFloors allAnimals allColors) =
      Ref.absolute_check_if_satisfied (.animal .Frog) (.color .Red)
        (buildAssignment allFloors allAnimals allColors) :=
  ⟨by unfold isFullAssignment; exact ⟨by decide, by decide, by decide⟩,
   c7_relative_zero_degenerates_to_absolute
     (buildAssignment allFloors allAnimals allColors)
     (by unfold isFullAssignment; exact ⟨by decide, by decide, by decide⟩)
     (.animal .Frog) (.color .Red)⟩

/-- C10: the Absolute check is `false` on the empty collection, and `false`
exactly when no single assignment matches both attributes simultaneously —
there is no vacuous-truth rule for under-sized input. -/
theorem c10_absolute_no_vacuous_truth (attr1 attr2 : Attr)
    (assignments : List FloorAssignment) :
    Ref.absolute_check_if_satisfied attr1 attr2 [] = false ∧
    (Ref.absolute_check_if_satisfied attr1 attr2 assignments = false ↔
      ∀ a ∈ assignments,
        ¬(check_attr_match a attr1 = true ∧ check_attr_match a attr2 = true)) := by
  constructor
  · rfl
  · rw [Ref.absolute_check_if_satisfied]
    simp [List.any_eq_false]

/-- C3 counterexample: in `count_assignments.py` the Relative and Neighbor
checks return `False` on the empty collection (size 0 < 2), because neither
attribute gets a matching assignment — there is no under-2-elements
vacuous-truth rule in that file. -/
theorem c3_counterexample_ref_small_input_false :
    ([] : List FloorAssignment).length < 2 ∧
    Ref.relative_check_if_satisfied (.animal .Frog) (.color .Red) 0 [] = false ∧
    Ref.neighbor_check_if_satisfied (.animal .Frog) (.color .Red) [] = false := by
  exact ⟨by decide, rfl, rfl⟩

/-- C3 amended: the vacuous-truth rule for collections of fewer than 2
elements holds in `count_assignments_alternative_solution.py`, whose Relative
and Neighbor checks return `True` immediately on such input. -/
theorem c3_alt_vacuous_truth_small_input (attr1 attr2 : Attr)
    (difference : Int) (assignments : List FloorAssignment)
    (h : assignments.length < 2) :
    Alt.relative_check_if_satisfied attr1 attr2 difference assignments = true ∧
    Alt.neighbor_check_if_satisfied attr1 attr2 assignments = true := by
  rw [Alt.relative_check_if_satisfied, Alt.neighbor_check_if_satisfied]
  rw [if_pos h, if_pos h]
  exact ⟨rfl, rfl⟩

/-- C3 witness: the empty collection. -/
theorem c3_alt_vacuous_truth_small_input_witness :
    ([] : List FloorAssignment).length < 2 ∧
    (Alt.relative_check_if_satisfied (.animal .Frog) (.color .Red) 0 [] = true ∧
     Alt.neighbor_check_if_satisfied (.animal .Frog) (.color .Red) [] = true) :=
  ⟨by decide,
   c3_alt_vacuous_truth_small_input (.animal .Frog) (.color .Red) 0 [] (by decide)⟩

/-- C4 counterexample: with duplicate partial data, `count_assignments.py`
keeps only the LAST assignment matching each attribute, so it misses a
satisfying pair that exists in the cross product: here the pair
(floor 1 Frog, floor 3 Green) has difference -2, yet the check is `False`. -/
theorem c4_counterexample_ref_last_match_only :
    Ref.relative_check_if_satisfied (.animal .Frog) (.color .Green) (-2)
      [⟨.First, .Frog, .Red⟩, ⟨.Third, .Frog, .Green⟩] = false ∧
    (∃ a1 ∈ [(⟨.First, .Frog, .Red⟩ : FloorAssignment),
             ⟨.Third, .Frog, .Green⟩],
      ∃ a2 ∈ [(⟨.First, .Frog, .Red⟩ : FloorAssignment),
              ⟨.Third, .Frog, .Green⟩],
        check_attr_match a1 (.animal .Frog) = true ∧
        check_attr_match a2 (.color .Green) = true ∧
        a1.floor.val - a2.floor.val = -2) := by
  exact ⟨by decide, by decide⟩

/-- C4 amended: the full-cross-product semantics holds for the alternative
file's Relative and Neighbor checks on every collection of at least 2
assignments (below 2, its vacuous-truth rule fires instead). -/
theorem c4_alt_cross_product_semantics (attr1 attr2 : Attr)
    (difference : Int) (assignments : List FloorAssignment)
    (h : 2 ≤ assignments.length) :
    (Alt.relative_check_if_satisfied attr1 attr2 difference assignments = true ↔
      ∃ a1 ∈ assignments, ∃ a2 ∈ assignments,
        check_attr_match a1 attr1 = true ∧ check_attr_match a2 attr2 = true ∧
        a1.floor.val - a2.floor.val = difference) ∧
    (Alt.neighbor_check_if_satisfied attr1 attr2 assignments = true ↔
      ∃ a1 ∈ assignments, ∃ a2 ∈ assignments,
        check_attr_match a1 attr1 = true ∧ check_attr_match a2 attr2 = true ∧
        (a1.floor.val - a2.floor.val).natAbs = 1) := by
  have hn : ¬assignments.length < 2 := by omega
  rw [Alt.relative_check_if_satisfied, Alt.neighbor_check_if_satisfied]
  rw [if_neg hn, if_neg hn]
  constructor
  · simp only [List.any_eq_true, List.mem_filter, beq_iff_eq]
    constructor
    · rintro ⟨a1, ⟨m1, p1⟩, a2, ⟨m2, p2⟩, hd⟩
      exact ⟨a1, m1, a2, m2, p1, p2, hd⟩
    · rintro ⟨a1, m1, a2, m2, p1, p2, hd⟩
      exact ⟨a1, ⟨m1, p1⟩, a2, ⟨m2, p2⟩, hd⟩
  · simp only [List.any_eq_true, List.mem_filter, beq_iff_eq]
    constructor
    · rintro ⟨a1, ⟨m1, p1⟩, a2, ⟨m2, p2⟩, hd⟩
      exact ⟨a1, m1, a2, m2, p1, p2, hd⟩
    · rintro ⟨a1, m1, a2, m2, p1, p2, hd⟩
      exact ⟨a1, ⟨m1, p1⟩, a2, ⟨m2, p2⟩, hd⟩

/-- C4 witness: a 2-element duplicate-data collection where the alternative
check agrees with the cross-product characterisation. -/
theorem c4_alt_cross_product_semantics_witness :
    2 ≤ ([(⟨.First, .Frog, .Red⟩ : FloorAssignment),
          ⟨.Third, .Frog, .Green⟩] : List FloorAssignment).length ∧
    ((Alt.relative_check_if_satisfied (.animal .Frog) (.color .Green) (-2)
        [⟨.First, .Frog, .Red⟩, ⟨.Third, .Frog, .Green⟩] = true ↔
      ∃ a1 ∈ [(⟨.First, .Frog, .Red⟩ : FloorAssignment),
              ⟨.Third, .Frog, .Green⟩],
        ∃ a2 ∈ [(⟨.First, .Frog, .Red⟩ : FloorAssignment),
                ⟨.Third, .Frog, .Green⟩],
          check_attr_match a1 (.animal .Frog) = true ∧
          check_attr_match a2 (.color .Green) = true ∧
          a1.floor.val - a2.floor.val = -2) ∧
     (Alt.neighbor_check_if_satisfied (.animal .Frog) (.color .Green)
        [⟨.First, .Frog, .Red⟩, ⟨.Third, .Frog, .Green⟩] = true ↔
      ∃ a1 ∈ [(⟨.First, .Frog, .Red⟩ : FloorAssignment),
              ⟨.Third, .Frog, .Green⟩],
        ∃ a2 ∈ [(⟨.First, .Frog, .Red⟩ : FloorAssignment),
                ⟨.Third, .Frog, .Green⟩],
          check_attr_match a1 (.animal .Frog) = true ∧
          check_attr_match a2 (.color .Green) = true ∧
          (a1.floor.val - a2.floor.val).natAbs = 1)) :=
  ⟨by decide,
   c4_alt_cross_product_semantics (.animal .Frog) (.color .Green) (-2)
     [⟨.First, .Frog, .Red⟩, ⟨.Third, .Frog, .Green⟩] (by decide)⟩

/-- C5 counterexample: constructing a hint with a non-Floor/Color/Animal
attribute does NOT fail — the source `__init__` stores the attributes with no
validation (no `InvalidAttribute` exists anywhere in the repository) — and
during matching the malformed attribute is silently ignored: it matches no
assignment, so the constructed hint simply evaluates to unsatisfied. -/
theorem c5_counterexample_no_construction_failure :
    Ref.check_if_satisfied (Hint.absolute Attr.other (Attr.floor .First))
      (buildAssignment allFloors allAnimals allColors) = false ∧
    check_attr_match ⟨.First, .Frog, .Red⟩ Attr.other = false :=
  ⟨by decide, rfl⟩

/-- C5 amended: a malformed attribute is accepted at construction and then
silently ignored during matching — `_check_attr_match` returns `False` for
it, so every hint carrying it is unsatisfied on every collection. -/
theorem c5_invalid_attribute_silently_ignored (a : FloorAssignment)
    (attr2 : Attr) (difference : Int) (assignments : List FloorAssignment) :
    check_attr_match a Attr.other = false ∧
    Ref.absolute_check_if_satisfied Attr.other attr2 assignments = false ∧
    Ref.relative_check_if_satisfied Attr.other attr2 difference assignments
      = false ∧
    Ref.neighbor_check_if_satisfied Attr.other attr2 assignments = false := by
  have hnone : lastMatch (check_attr_match · Attr.other) assignments = none :=
    lastMatch_eq_none _ _ fun _ _ => rfl
  refine ⟨rfl, ?_, ?_, ?_⟩
  · simp [Ref.absolute_check_if_satisfied, check_attr_match]
  · rw [Ref.relative_check_if_satisfied, hnone]
  · rw [Ref.neighbor_check_if_satisfied, hnone]

/-- C8: duplicating every hint does not change the count — a candidate
satisfies `H ++ H` exactly when it satisfies `H`, and the empty list is its
own duplication. -/
theorem c8_count_assignments_idempotent_under_duplication
    (hints : List Hint) :
    Ref.count_assignments hints = Ref.count_assignments (hints ++ hints) := by
  cases hints with
  | nil => rfl
  | cons h t =>
    show Ref.bruteForceCount (h :: t)
      = Ref.bruteForceCount ((h :: t) ++ (h :: t))
    rw [Ref.bruteForceCount, Ref.bruteForceCount]
    congr 1
    funext assignment
    rw [List.all_append, Bool.and_self]

/-- C9: every candidate built by the enumeration (an animal permutation and a
color permutation zipped with the floors) is a full assignment: floors,
animals and colors are each pairwise distinct. -/
theorem c9_enumerated_candidates_are_bijections
    (animal_perm : List Animal) (color_perm : List Color)
    (h1 : animal_perm ∈ perms allAnimals) (h2 : color_perm ∈ perms allColors) :
    isFullAssignment (buildAssignment allFloors animal_perm color_perm) ∧
    ((buildAssignment allFloors animal_perm color_perm).map
      FloorAssignment.floor).Nodup ∧
    ((buildAssignment allFloors animal_perm color_perm).map
      FloorAssignment.animal).Nodup ∧
    ((buildAssignment allFloors animal_perm color_perm).map
      FloorAssignment.color).Nodup := by
  have hp1 := perms_perm allAnimals animal_perm h1
  have hp2 := perms_perm allColors color_perm h2
  have hl1 : allFloors.length = animal_perm.length := by
    rw [hp1.length_eq]; rfl
  have hl2 : allFloors.length = color_perm.length := by
    rw [hp2.length_eq]; rfl
  obtain ⟨e1, e2, e3⟩ := buildAssignment_map allFloors animal_perm color_perm hl1 hl2
  refine ⟨⟨?_, ?_, ?_⟩, ?_, ?_, ?_⟩
  · rw [e1]
  · rw [e2]; exact hp1
  · rw [e3]; exact hp2
  · rw [e1]; decide
  · rw [e2]; exact hp1.symm.nodup (by decide)
  · rw [e3]; exact hp2.symm.nodup (by decide)

/-- C9 witness: the identity permutations. -/
theorem c9_enumerated_candidates_are_bijections_witness :
    allAnimals ∈ perms allAnimals ∧ allColors ∈ perms allColors ∧
    (isFullAssignment (buildAssignment allFloors allAnimals allColors) ∧
     ((buildAssignment allFloors allAnimals allColors).map
       FloorAssignment.floor).Nodup ∧
     ((buildAssignment allFloors allAnimals allColors).map
       FloorAssignment.animal).Nodup ∧
     ((buildAssignment allFloors allAnimals allColors).map
       FloorAssignment.color).Nodup) :=
  ⟨by decide, by decide,
   c9_enumerated_candidates_are_bijections allAnimals allColors
     (by decide) (by decide)⟩

/-- C6: the empty hint list returns 14400 = 5!·5! through the closed-form
fast path, and the general enumerate-and-filter loop produces exactly the
same value on the empty hint list. -/
theorem c6_empty_hints_closed_form :
    Ref.count_assignments [] = 14400 ∧
    Nat.factorial 5 * Nat.factorial 5 = 14400 ∧
    Ref.bruteForceCount [] = 14400 := by
  refine ⟨by decide, by decide, ?_⟩
  rw [Ref.bruteForceCount_eq_sum]
  decide

/-- C1: the constraint-propagation `count_assignments` of the alternative
file is NOT equivalent to the brute-force definition.  On the single hint
`AbsoluteHint(Animal.Frog, Color.Red)` the propagation squashes every
floor's domain to the singleton (Frog, Red), reaches the all-singleton
branch with a non-bijective candidate that satisfies the hint, and returns
1 — while the brute-force `count_assignments` of `count_assignments.py`
returns 5·4!·4! = 2880. -/
theorem c1_alternative_count_diverges_from_brute_force :
    Alt.count_assignments probeHints = 1 ∧
    Ref.count_assignments probeHints = 2880 := by
  constructor
  · decide
  · rw [Ref.count_assignments_probe, Ref.bruteForceCount_eq_sum,
      animalPerms_chunked]
    simp only [List.map_append, List.sum_append, probe_chunkSum_0,
      probe_chunkSum_1, probe_chunkSum_2, probe_chunkSum_3, probe_chunkSum_4,
      probe_chunkSum_5, probe_chunkSum_6, probe_chunkSum_7, probe_chunkSum_8,
      probe_chunkSum_9, probe_chunkSum_10, probe_chunkSum_11]

/-- C2: `count_assignments` reproduces the spec's four end-to-end scenarios:
the six-hint absolute/neighbor list yields 2, the six-hint list with a
relative hint yields 4, the single Relative(Rabbit, Green, -2) yields 1728,
and the single Neighbor(Rabbit, Green) yields 4608. -/
theorem c2_end_to_end_scenarios :
    Ref.count_assignments exampleHints1 = 2 ∧
    Ref.count_assignments exampleHints2 = 4 ∧
    Ref.count_assignments exampleHints3 = 1728 ∧
    Ref.count_assignments exampleHints4 = 4608 := by
  refine ⟨?_, ?_, ?_, ?_⟩
  · rw [Ref.count_assignments_ex1, Ref.bruteForceCount_eq_sum,
      animalPerms_chunked]
    simp only [List.map_append, List.sum_append, ex1_chunkSum_0, ex1_chunkSum_1, ex1_chunkSum_2, ex1_chunkSum_3, ex1_chunkSum_4, ex1_chunkSum_5, ex1_chunkSum_6, ex1_chunkSum_7, ex1_chunkSum_8, ex1_chunkSum_9, ex1_chunkSum_10, ex1_chunkSum_11]
  · rw [Ref.count_assignments_ex2, Ref.bruteForceCount_eq_sum,
      animalPerms_chunked]
    simp only [List.map_append, List.sum_append, ex2_chunkSum_0, ex2_chunkSum_1, ex2_chunkSum_2, ex2_chunkSum_3, ex2_chunkSum_4, ex2_chunkSum_5, ex2_chunkSum_6, ex2_chunkSum_7, ex2_chunkSum_8, ex2_chunkSum_9, ex2_chunkSum_10, ex2_chunkSum_11]
  · rw [Ref.count_assignments_ex3, Ref.bruteForceCount_eq_sum,
      animalPerms_chunked]
    simp only [List.map_append, List.sum_append, ex3_chunkSum_0, ex3_chunkSum_1, ex3_chunkSum_2, ex3_chunkSum_3, ex3_chunkSum_4, ex3_chunkSum_5, ex3_chunkSum_6, ex3_chunkSum_7, ex3_chunkSum_8, ex3_chunkSum_9, ex3_chunkSum_10, ex3_chunkSum_11]
  · rw [Ref.count_assignments_ex4, Ref.bruteForceCount_eq_sum,
      animalPerms_chunked]
    simp only [List.map_append, List.sum_append, ex4_chunkSum_0, ex4_chunkSum_1, ex4_chunkSum_2, ex4_chunkSum_3, ex4_chunkSum_4, ex4_chunkSum_5, ex4_chunkSum_6, ex4_chunkSum_7, ex4_chunkSum_8, ex4_chunkSum_9, ex4_chunkSum_10, ex4_chunkSum_11]
